import Mathlib

/-!
# Verification of the Prismic source-plugin Runtime core

Shallow embedding of `src/packages/gatsby-source-prismic/src/runtime/runtime.ts`.

Modelling conventions:
* JavaScript arrays become `List`; the source always *replaces* the arrays it
  holds (`[...xs, y]`, `filter`) rather than mutating them in place, which the
  embedding reflects by pure state transformers on a `Runtime` structure.
* Subscriber callbacks are identified by a `Nat` reference id (JS compares
  callbacks by reference equality).  A callback's behaviour during
  notification is an arbitrary state transformer `Nat → Runtime → Runtime`,
  so re-entrant calls into the Runtime by a callback are expressible.
  Notification returns, besides the final state, the trace of invocations:
  the list of `(callback id, state the callback observes)` in invocation
  order, mirroring the `for (const subscriber of this.subscribers)` loop.
* The pure helper functions imported by `runtime.ts` but defined outside the
  sources (`customTypeModelToTypePaths`, `sharedSliceModelToTypePaths`,
  `normalize`) are universally quantified parameters of the operations that
  use them: `runtime.ts` treats them as black boxes, and every claim below is
  settled for every possible behaviour of those parameters.
* `md5` (the `tiny-hashes` dependency) and `JSON.stringify` (a JS builtin)
  are external to the repository and are modelled from the spec / ECMAScript
  semantics; see `md5Model` and `jsonStringify`.
-/

/-- `TypePath` (from `../types`): a structural path of field names together
with the declared field-type tag.  The tag enum is modelled as a `String`. -/
structure TypePath where
  path : List String
  type : String
deriving DecidableEq, Repr

/-- A JavaScript value, as far as `JSON.stringify` and the document payloads
need: `nan` is the number `NaN` (it serializes like `null`), `num` covers the
integer-valued numbers, objects keep their key order. -/
inductive JSValue where
  | null : JSValue
  | nan : JSValue
  | bool : Bool → JSValue
  | num : Int → JSValue
  | str : String → JSValue
  | arr : List JSValue → JSValue
  | obj : List (String × JSValue) → JSValue

/-- `NormalizedDocumentValue` (from `./normalizers`, outside the sources):
`runtime.ts` only reads its `prismicId` field; the rest of the node is an
opaque payload. -/
structure NormalizedDocumentValue where
  prismicId : String
  payload : JSValue

/-- A Prismic document as consumed by `registerDocument`: `runtime.ts` reads
its `type` field; the rest is an opaque payload tree. -/
structure PrismicDocument where
  id : String
  type : String
  data : JSValue

/-- The default `transformFieldName`: replace every hyphen in the field name
with an underscore (the source uses a global regex replace). -/
def defaultTransformFieldName (fieldName : String) : String :=
  fieldName.map (fun c => if c = '-' then '_' else c)

/-- `RuntimeConfig` after the constructor's defaulting.  The opaque
configuration payloads (link resolver, serializers, imgix parameter sets) are
never inspected by the code the claims are about and are omitted;
`transformFieldName` is kept because the model-registration methods pass it on. -/
structure RuntimeConfig where
  typePrefix : Option String
  transformFieldName : String → String

/-- The `Runtime` state: the three ordered sequences plus the fixed config.
Subscribers are callback reference ids. -/
structure Runtime where
  nodes : List NormalizedDocumentValue
  typePaths : List TypePath
  subscribers : List Nat
  config : RuntimeConfig

/-- The constructor: the three sequences start empty
(`this.nodes = []; this.typePaths = []; this.subscribers = []`). -/
def createRuntime (config : RuntimeConfig) : Runtime :=
  { nodes := [], typePaths := [], subscribers := [], config := config }

/-- A callback behaviour: what invoking callback id `s` does to the state.
`idBehav` is the behaviour of ordinary callbacks that do not call back into
the Runtime. -/
def idBehav : Nat → Runtime → Runtime := fun _ rt => rt

/-- The loop body of `#notifySubscribers`: iterate over the list of callback
ids captured when the loop began (faithful to the source, where
`subscribe`/`unsubscribe` replace `this.subscribers` with a fresh array, so
the `for…of` iteration is unaffected by re-entrant changes), threading the
state through each callback and recording `(id, state observed)` per
invocation. -/
def notifyGo (behav : Nat → Runtime → Runtime) :
    List Nat → Runtime → Runtime × List (Nat × Runtime)
  | [], rt => (rt, [])
  | s :: rest, rt =>
    let r := notifyGo behav rest (behav s rt)
    (r.1, (s, rt) :: r.2)

/-- `#notifySubscribers()`: `for (const subscriber of this.subscribers) { subscriber() }`. -/
def Runtime.notifySubscribers (behav : Nat → Runtime → Runtime) (rt : Runtime) :
    Runtime × List (Nat × Runtime) :=
  notifyGo behav rt.subscribers rt

/-- `subscribe(callback)`: `this.subscribers = [...this.subscribers, callback]`. -/
def Runtime.subscribe (rt : Runtime) (callback : Nat) : Runtime :=
  { rt with subscribers := rt.subscribers ++ [callback] }

/-- `unsubscribe(callback)`: `this.subscribers = this.subscribers.filter((r) => r !== callback)`. -/
def Runtime.unsubscribe (rt : Runtime) (callback : Nat) : Runtime :=
  { rt with subscribers := rt.subscribers.filter (fun r => r != callback) }

/-- The state mutation shared by every typePath-registering method:
`this.typePaths = [...this.typePaths, ...typePaths]`. -/
def Runtime.appendTypePaths (rt : Runtime) (typePaths : List TypePath) : Runtime :=
  { rt with typePaths := rt.typePaths ++ typePaths }

/-- `registerTypePaths(typePaths)`: append, then notify. -/
def Runtime.registerTypePaths (behav : Nat → Runtime → Runtime) (rt : Runtime)
    (typePaths : List TypePath) : Runtime × List (Nat × Runtime) :=
  (rt.appendTypePaths typePaths).notifySubscribers behav

/-- `registerCustomTypeModel(model)`: compute the fragment via the pure
`customTypeModelToTypePaths` (a black-box parameter `cttp`, applied to the
model and `this.config.transformFieldName`), append, notify, return the
fragment. -/
def Runtime.registerCustomTypeModel {M : Type}
    (cttp : M → (String → String) → List TypePath)
    (behav : Nat → Runtime → Runtime) (rt : Runtime) (model : M) :
    (Runtime × List (Nat × Runtime)) × List TypePath :=
  let typePaths := cttp model rt.config.transformFieldName
  ((rt.appendTypePaths typePaths).notifySubscribers behav, typePaths)

/-- `registerCustomTypeModels(models)`: `models.flatMap(...)`, append, notify. -/
def Runtime.registerCustomTypeModels {M : Type}
    (cttp : M → (String → String) → List TypePath)
    (behav : Nat → Runtime → Runtime) (rt : Runtime) (models : List M) :
    (Runtime × List (Nat × Runtime)) × List TypePath :=
  let typePaths := models.flatMap (fun model => cttp model rt.config.transformFieldName)
  ((rt.appendTypePaths typePaths).notifySubscribers behav, typePaths)

/-- `registerSharedSliceModel(model)`: same shape as the custom-type variant,
with `sharedSliceModelToTypePaths` as the black-box parameter `sstp`. -/
def Runtime.registerSharedSliceModel {M : Type}
    (sstp : M → (String → String) → List TypePath)
    (behav : Nat → Runtime → Runtime) (rt : Runtime) (model : M) :
    (Runtime × List (Nat × Runtime)) × List TypePath :=
  let typePaths := sstp model rt.config.transformFieldName
  ((rt.appendTypePaths typePaths).notifySubscribers behav, typePaths)

/-- `registerSharedSliceModels(models)`. -/
def Runtime.registerSharedSliceModels {M : Type}
    (sstp : M → (String → String) → List TypePath)
    (behav : Nat → Runtime → Runtime) (rt : Runtime) (models : List M) :
    (Runtime × List (Nat × Runtime)) × List TypePath :=
  let typePaths := models.flatMap (fun model => sstp model rt.config.transformFieldName)
  ((rt.appendTypePaths typePaths).notifySubscribers behav, typePaths)

/-- The type of the black-box `normalize` function (`./normalize`, outside
the sources).  It receives read access to the runtime (the source passes
`getNode`/`getTypePath` bound to `this` plus the config) together with the
value and its path. -/
def NormalizeFn : Type :=
  Runtime → PrismicDocument → List String → NormalizedDocumentValue

/-- `normalizeDocument(document)`: `this.normalize(document, [document.type])`
— the path root is the document's type name. -/
def Runtime.normalizeDocument (nf : NormalizeFn) (rt : Runtime)
    (document : PrismicDocument) : NormalizedDocumentValue :=
  nf rt document [document.type]

/-- `registerDocument(document)`: normalize, `this.nodes = [...this.nodes, normalizedDocument]`,
notify, return the normalized node. -/
def Runtime.registerDocument (nf : NormalizeFn) (behav : Nat → Runtime → Runtime)
    (rt : Runtime) (document : PrismicDocument) :
    (Runtime × List (Nat × Runtime)) × NormalizedDocumentValue :=
  let normalizedDocument := rt.normalizeDocument nf document
  (({ rt with nodes := rt.nodes ++ [normalizedDocument] }).notifySubscribers behav,
    normalizedDocument)

/-- `registerDocuments(documents)`: `documents.map((d) => this.normalizeDocument(d))`
(all map iterations see the original `this.nodes`, which is reassigned only
after the map completes), append all, notify, return the nodes. -/
def Runtime.registerDocuments (nf : NormalizeFn) (behav : Nat → Runtime → Runtime)
    (rt : Runtime) (documents : List PrismicDocument) :
    (Runtime × List (Nat × Runtime)) × List NormalizedDocumentValue :=
  let nodes := documents.map (fun document => rt.normalizeDocument nf document)
  (({ rt with nodes := rt.nodes ++ nodes }).notifySubscribers behav, nodes)

/-- `getNode(id)`: `this.nodes.find((node) => node.prismicId === id)`. -/
def Runtime.getNode (rt : Runtime) (id : String) : Option NormalizedDocumentValue :=
  rt.nodes.find? (fun node => node.prismicId == id)

/-- `hasNode(id)`: `this.nodes.some((node) => node.prismicId === id)`. -/
def Runtime.hasNode (rt : Runtime) (id : String) : Bool :=
  rt.nodes.any (fun node => node.prismicId == id)

/-- `Array.prototype.join`-comparison key used by `getTypePath`:
`path.join('__SEPARATOR__')`. -/
def sepJoin (path : List String) : String :=
  String.intercalate "__SEPARATOR__" path

/-- `getTypePath(path)`: `this.typePaths.find((tp) => tp.path.join('__SEPARATOR__') === path.join('__SEPARATOR__'))`. -/
def Runtime.getTypePath (rt : Runtime) (path : List String) : Option TypePath :=
  rt.typePaths.find? (fun typePath => sepJoin typePath.path == sepJoin path)

/-- Modelled from the spec: the `md5` string hash from the external
`tiny-hashes` dependency — "pure, deterministic, collision-resistant-enough
hash; same input always yields same output".  Modelled as a concrete
deterministic string hash; nothing proved below relies on any property of the
hash beyond its being a function of the input string. -/
def md5Model (input : String) : String :=
  toString (input.foldl (fun h c => (h * 31 + c.toNat) % 4294967296) 5381)

/-- `const createNodeId = (input) => md5(input)`. -/
def createNodeId (input : String) : String :=
  md5Model input

/-- Escaping of one character inside a JSON string literal (quote and
backslash; other characters pass through, which is faithful for the inputs
considered here). -/
def escapeJsonChar (c : Char) : String :=
  if c = '"' then "\\\"" else if c = '\\' then "\\\\" else String.singleton c

/-- A JSON string literal, as `JSON.stringify` produces for a string. -/
def quoteJsonString (s : String) : String :=
  "\"" ++ String.join (s.data.map escapeJsonChar) ++ "\""

mutual

/-- Modelled from ECMAScript semantics: `JSON.stringify` on the `JSValue`
fragment.  Order-preserving on object keys; `NaN` serializes to `"null"`
(ECMA-404/ECMA-262: non-finite numbers stringify as `null`). -/
def jsonStringify : JSValue → String
  | .null => "null"
  | .nan => "null"
  | .bool true => "true"
  | .bool false => "false"
  | .num n => toString n
  | .str s => quoteJsonString s
  | .arr xs => "[" ++ String.intercalate "," (jsonStringifyList xs) ++ "]"
  | .obj fields => "\x7b" ++ String.intercalate "," (jsonStringifyFields fields) ++ "\x7d"

/-- Serialization of the elements of a JSON array, in order. -/
def jsonStringifyList : List JSValue → List String
  | [] => []
  | v :: vs => jsonStringify v :: jsonStringifyList vs

/-- Serialization of the key/value entries of a JSON object, in key order. -/
def jsonStringifyFields : List (String × JSValue) → List String
  | [] => []
  | (k, v) :: fields => (quoteJsonString k ++ ":" ++ jsonStringify v) :: jsonStringifyFields fields

end

/-- `const createContentDigest = (input) => md5(JSON.stringify(input))`. -/
def createContentDigest (input : JSValue) : String :=
  md5Model (jsonStringify input)

/-- A default config for concrete instances: no type prefix, default field
transform (as the constructor installs when no overrides are given). -/
def cfg0 : RuntimeConfig :=
  { typePrefix := none, transformFieldName := defaultTransformFieldName }

/-- A freshly constructed runtime. -/
def rt0 : Runtime := createRuntime cfg0

/-! ## Helper lemmas -/

/-- The invocation trace of the notification loop lists exactly the callback
ids of the list captured when the loop began, in order, whatever the
callbacks do to the state. -/
theorem notifyGo_trace_ids (behav : Nat → Runtime → Runtime) (l : List Nat) (rt : Runtime) :
    ((notifyGo behav l rt).2).map Prod.fst = l := by
  induction l generalizing rt with
  | nil => rfl
  | cons s rest ih => simp [notifyGo, ih]

/-- With callbacks that do not re-enter the Runtime, notification leaves the
state unchanged and every callback observes that same state. -/
theorem notifyGo_idBehav (l : List Nat) (rt : Runtime) :
    notifyGo idBehav l rt = (rt, l.map (fun s => (s, rt))) := by
  induction l generalizing rt with
  | nil => rfl
  | cons s rest ih => simp [notifyGo, idBehav, ih]

/-- State form of `notifyGo_idBehav` for the method wrapper. -/
theorem notify_idBehav_state (rt : Runtime) :
    (rt.notifySubscribers idBehav).1 = rt := by
  simp [Runtime.notifySubscribers, notifyGo_idBehav]

/-- Trace form of `notifyGo_idBehav` for the method wrapper. -/
theorem notify_idBehav_trace (rt : Runtime) :
    (rt.notifySubscribers idBehav).2 = rt.subscribers.map (fun s => (s, rt)) := by
  simp [Runtime.notifySubscribers, notifyGo_idBehav]

/-- A successful `find?` splits the list: the hit satisfies the predicate and
everything before it fails it. -/
theorem find?_some_split {α : Type} (p : α → Bool) :
    ∀ (l : List α) (a : α), l.find? p = some a →
      p a = true ∧ ∃ l1 l2, l = l1 ++ a :: l2 ∧ ∀ x ∈ l1, p x = false := by
  intro l
  induction l with
  | nil => intro a h; simp [List.find?] at h
  | cons x xs ih =>
    intro a h
    cases hx : p x with
    | true =>
      rw [List.find?_cons_of_pos _ hx, Option.some_inj] at h
      subst h
      exact ⟨hx, [], xs, rfl, by simp⟩
    | false =>
      rw [List.find?_cons_of_neg _ (by simp [hx])] at h
      obtain ⟨hp, l1, l2, rfl, hl1⟩ := ih a h
      refine ⟨hp, x :: l1, l2, rfl, ?_⟩
      intro y hy
      rcases List.mem_cons.mp hy with rfl | hy'
      · exact hx
      · exact hl1 y hy'

/-- Conversely, `find?` returns the head of the first satisfying suffix. -/
theorem find?_split_some {α : Type} (p : α → Bool) (l1 : List α) (l2 : List α) (a : α)
    (ha : p a = true) (h1 : ∀ x ∈ l1, p x = false) :
    (l1 ++ a :: l2).find? p = some a := by
  induction l1 with
  | nil => simpa using List.find?_cons_of_pos _ ha
  | cons x xs ih =>
    have hx : p x = false := h1 x (by simp)
    rw [List.cons_append, List.find?_cons_of_neg _ (by simp [hx])]
    exact ih (fun y hy => h1 y (List.mem_cons_of_mem x hy))

/-! ## Claims -/

/-- C10: if a subscriber callback, while being invoked during a mutation's
notification, calls `subscribe` or `unsubscribe` (or performs any other
state change), the callbacks invoked for that triggering mutation are
unchanged: notification iterates the subscriber sequence as it existed when
notification began (the source replaces the `subscribers` array rather than
mutating it in place, which the fixed iteration list of `notifyGo` models).
For every callback behaviour, the ids invoked — in order — are exactly the
subscriber list at the start of notification; for a mutation such as
`registerTypePaths`, they are exactly the subscribers registered when the
mutation was called. -/
theorem notification_uses_snapshot :
    ∀ (behav : Nat → Runtime → Runtime) (rt : Runtime),
      ((rt.notifySubscribers behav).2).map Prod.fst = rt.subscribers ∧
      ∀ typePaths : List TypePath,
        ((rt.registerTypePaths behav typePaths).2).map Prod.fst = rt.subscribers := by
  intro behav rt
  refine ⟨notifyGo_trace_ids behav rt.subscribers rt, ?_⟩
  intro typePaths
  simpa [Runtime.registerTypePaths, Runtime.notifySubscribers, Runtime.appendTypePaths] using
    notifyGo_trace_ids behav rt.subscribers (rt.appendTypePaths typePaths)

/-- C2: every mutating Runtime operation (`registerCustomTypeModel(s)`,
`registerSharedSliceModel(s)`, `registerTypePaths`, `registerDocument(s)`)
invokes each currently-subscribed callback exactly once, in subscription
order, and only after the mutation to the state has been fully applied: with
non-re-entrant callbacks the invocation trace of each operation is exactly
the pre-operation subscriber list, in order, each paired with the
post-mutation state it observes (the state with the typePath/node append
already applied); moreover the ids invoked are the subscriber list for
arbitrary callback behaviours. -/
theorem mutations_notify_in_order_after_mutation :
    ∀ {M M' : Type} (cttp : M → (String → String) → List TypePath)
      (sstp : M' → (String → String) → List TypePath) (nf : NormalizeFn)
      (rt : Runtime) (typePaths : List TypePath) (model : M) (models : List M)
      (slice : M') (slices : List M') (document : PrismicDocument)
      (documents : List PrismicDocument),
      ((rt.registerCustomTypeModel cttp idBehav model).1.2
        = rt.subscribers.map
            (fun s => (s, rt.appendTypePaths (cttp model rt.config.transformFieldName)))) ∧
      ((rt.registerCustomTypeModels cttp idBehav models).1.2
        = rt.subscribers.map
            (fun s => (s, rt.appendTypePaths
              (models.flatMap (fun m => cttp m rt.config.transformFieldName))))) ∧
      ((rt.registerSharedSliceModel sstp idBehav slice).1.2
        = rt.subscribers.map
            (fun s => (s, rt.appendTypePaths (sstp slice rt.config.transformFieldName)))) ∧
      ((rt.registerSharedSliceModels sstp idBehav slices).1.2
        = rt.subscribers.map
            (fun s => (s, rt.appendTypePaths
              (slices.flatMap (fun m => sstp m rt.config.transformFieldName))))) ∧
      ((rt.registerTypePaths idBehav typePaths).2
        = rt.subscribers.map (fun s => (s, rt.appendTypePaths typePaths))) ∧
      ((rt.registerDocument nf idBehav document).1.2
        = rt.subscribers.map
            (fun s => (s, { rt with nodes := rt.nodes ++ [rt.normalizeDocument nf document] }))) ∧
      ((rt.registerDocuments nf idBehav documents).1.2
        = rt.subscribers.map
            (fun s => (s, { rt with
              nodes := rt.nodes ++ documents.map (rt.normalizeDocument nf) }))) ∧
      (∀ behav : Nat → Runtime → Runtime,
        ((rt.registerTypePaths behav typePaths).2).map Prod.fst = rt.subscribers ∧
        ((rt.registerDocument nf behav document).1.2).map Prod.fst = rt.subscribers) := by
  intro M M' cttp sstp nf rt typePaths model models slice slices document documents
  refine ⟨?_, ?_, ?_, ?_, ?_, ?_, ?_, ?_⟩
  · simp [Runtime.registerCustomTypeModel, notify_idBehav_trace, Runtime.appendTypePaths]
  · simp [Runtime.registerCustomTypeModels, notify_idBehav_trace, Runtime.appendTypePaths]
  · simp [Runtime.registerSharedSliceModel, notify_idBehav_trace, Runtime.appendTypePaths]
  · simp [Runtime.registerSharedSliceModels, notify_idBehav_trace, Runtime.appendTypePaths]
  · simp [Runtime.registerTypePaths, notify_idBehav_trace, Runtime.appendTypePaths]
  · simp [Runtime.registerDocument, notify_idBehav_trace]
  · simp [Runtime.registerDocuments, notify_idBehav_trace]
  · intro behav
    constructor
    · simpa [Runtime.registerTypePaths, Runtime.notifySubscribers, Runtime.appendTypePaths] using
        notifyGo_trace_ids behav rt.subscribers (rt.appendTypePaths typePaths)
    · simpa [Runtime.registerDocument, Runtime.notifySubscribers] using
        notifyGo_trace_ids behav rt.subscribers
          { rt with nodes := rt.nodes ++ [rt.normalizeDocument nf document] }

/-- C9: `registerTypePaths(paths)` appends the given sequence to the end of
`typePaths` without deduplication (registering the same TypePath twice leaves
both entries) and leaves every other part of the state — `nodes`,
`subscribers`, `config` — identical. -/
theorem registerTypePaths_frame :
    ∀ (rt : Runtime) (typePaths : List TypePath) (tp : TypePath),
      ((rt.registerTypePaths idBehav typePaths).1.typePaths = rt.typePaths ++ typePaths) ∧
      ((rt.registerTypePaths idBehav typePaths).1.nodes = rt.nodes) ∧
      ((rt.registerTypePaths idBehav typePaths).1.subscribers = rt.subscribers) ∧
      ((rt.registerTypePaths idBehav typePaths).1.config = rt.config) ∧
      (((rt.registerTypePaths idBehav [tp]).1.registerTypePaths idBehav [tp]).1.typePaths
        = rt.typePaths ++ [tp] ++ [tp]) := by
  intro rt typePaths tp
  refine ⟨?_, ?_, ?_, ?_, ?_⟩ <;>
    simp [Runtime.registerTypePaths, notify_idBehav_state, Runtime.appendTypePaths]

/-- C7: `registerDocument` normalizes the document with path root the
document's type name (`normalizeDocument` calls the normalize function at
path `[document.type]`), appends exactly the resulting normalized node to the
end of `nodes`, and returns that same node; `registerDocuments` does likewise
element-wise in input order (each normalization reading the pre-call state,
as in the source where `this.nodes` is reassigned only after the map). -/
theorem registerDocument_normalizes_appends_returns :
    ∀ (nf : NormalizeFn) (rt : Runtime) (document : PrismicDocument)
      (documents : List PrismicDocument),
      (rt.normalizeDocument nf document = nf rt document [document.type]) ∧
      ((rt.registerDocument nf idBehav document).2 = rt.normalizeDocument nf document) ∧
      ((rt.registerDocument nf idBehav document).1.1.nodes
        = rt.nodes ++ [rt.normalizeDocument nf document]) ∧
      ((rt.registerDocuments nf idBehav documents).2
        = documents.map (fun d => rt.normalizeDocument nf d)) ∧
      ((rt.registerDocuments nf idBehav documents).1.1.nodes
        = rt.nodes ++ documents.map (fun d => rt.normalizeDocument nf d)) := by
  intro nf rt document documents
  refine ⟨rfl, rfl, ?_, rfl, ?_⟩ <;>
    simp [Runtime.registerDocument, Runtime.registerDocuments, notify_idBehav_state]

/-- A runtime with two TypePaths registered for the identical path (used to
exercise shadowing). -/
def rtShadow : Runtime :=
  { rt0 with typePaths := [⟨["page", "my_field"], "Select"⟩, ⟨["page", "my_field"], "Boolean"⟩] }

/-- A runtime holding a TypePath whose path is the one-element list
containing the empty field name: its join-key collides with the empty query
path. -/
def rtSep : Runtime := { rt0 with typePaths := [⟨[""], "Boolean"⟩] }

/-- A runtime with three nodes, two of them sharing the prismic id `"b"`. -/
def rtNodes : Runtime :=
  { rt0 with nodes := [⟨"a", JSValue.null⟩, ⟨"b", JSValue.null⟩, ⟨"b", JSValue.str "x"⟩] }

/-- A runtime with three distinct subscribers. -/
def rtTri : Runtime := { rt0 with subscribers := [1, 2, 3] }

/-- A runtime where the same callback reference was subscribed twice. -/
def rtDup : Runtime := (rt0.subscribe 0).subscribe 0

/-- C1 (amended): `getTypePath` returns the first registered TypePath whose
path joined with `'__SEPARATOR__'` equals the query path's join (and
not-found exactly when no registered path is join-equal); for identical
(component-wise equal) paths this yields first-registered-wins shadowing,
but join-equality is coarser than component-wise equality. -/
theorem getTypePath_join_semantics :
    ∀ (rt : Runtime) (path : List String),
      (rt.getTypePath path = none ↔ ∀ tp ∈ rt.typePaths, sepJoin tp.path ≠ sepJoin path) ∧
      (∀ tp, rt.getTypePath path = some tp →
        sepJoin tp.path = sepJoin path ∧
        ∃ l1 l2, rt.typePaths = l1 ++ tp :: l2 ∧
          ∀ tp' ∈ l1, sepJoin tp'.path ≠ sepJoin path) ∧
      (∀ (l1 l2 : List TypePath) (tp : TypePath),
        rt.typePaths = l1 ++ tp :: l2 → tp.path = path →
        (∀ tp' ∈ l1, sepJoin tp'.path ≠ sepJoin path) →
        rt.getTypePath path = some tp) := by
  intro rt path
  refine ⟨?_, ?_, ?_⟩
  · simp [Runtime.getTypePath, List.find?_eq_none]
  · intro tp h
    obtain ⟨hp, l1, l2, hsplit, hl1⟩ := find?_some_split _ _ _ h
    refine ⟨by simpa using hp, l1, l2, hsplit, ?_⟩
    intro tp' h'
    simpa using hl1 tp' h'
  · intro l1 l2 tp hsplit hpath hl1
    rw [Runtime.getTypePath, hsplit]
    exact find?_split_some _ l1 l2 tp (by simp [hpath]) (fun x hx => by simpa using hl1 x hx)

/-- Witness for C1's theorem: with two TypePaths registered for the identical
path `["page", "my_field"]`, lookup returns the earlier-registered one. -/
theorem getTypePath_join_semantics_witness :
    rtShadow.getTypePath ["page", "my_field"] = some ⟨["page", "my_field"], "Select"⟩ :=
  (getTypePath_join_semantics rtShadow ["page", "my_field"]).2.2
    [] [⟨["page", "my_field"], "Boolean"⟩] ⟨["page", "my_field"], "Select"⟩
    rfl rfl (by simp)

/-- Counterexample to C1 as stated: the query path `[]` is component-wise
equal to no registered path (the only registered path is `[""]`), yet lookup
returns that TypePath, because both join to the same key string. -/
theorem getTypePath_componentwise_counterexample :
    rtSep.getTypePath [] = some ⟨[""], "Boolean"⟩ ∧
    (⟨[""], "Boolean"⟩ : TypePath).path ≠ ([] : List String) := by
  exact ⟨rfl, by decide⟩

/-- C8: `hasNode(id)` returns true if and only if `getNode(id)` returns a
node, and the node `getNode` returns is the earliest-registered node whose
`prismicId` equals the queried id. -/
theorem hasNode_getNode_agree :
    ∀ (rt : Runtime) (id : String),
      (rt.hasNode id = true ↔ ∃ node, rt.getNode id = some node) ∧
      (∀ node, rt.getNode id = some node →
        node.prismicId = id ∧
        ∃ l1 l2, rt.nodes = l1 ++ node :: l2 ∧ ∀ m ∈ l1, m.prismicId ≠ id) := by
  intro rt id
  constructor
  · rw [Runtime.hasNode, Runtime.getNode, List.any_eq_true]
    constructor
    · intro ⟨x, hx, hp⟩
      exact Option.isSome_iff_exists.mp (List.find?_isSome.mpr ⟨x, hx, hp⟩)
    · intro ⟨node, hn⟩
      obtain ⟨hp, l1, l2, hsplit, _⟩ := find?_some_split _ _ _ hn
      exact ⟨node, by rw [hsplit]; simp, hp⟩
  · intro node h
    obtain ⟨hp, l1, l2, hsplit, hl1⟩ := find?_some_split _ _ _ h
    refine ⟨by simpa using hp, l1, l2, hsplit, ?_⟩
    intro m hm
    simpa using hl1 m hm

/-- Witness for C8's theorem: on a runtime with two nodes of prismic id
`"b"`, `getNode "b"` returns the earlier one and the characterization holds
at it. -/
theorem hasNode_getNode_agree_witness :
    (⟨"b", JSValue.null⟩ : NormalizedDocumentValue).prismicId = "b" ∧
    ∃ l1 l2, rtNodes.nodes = l1 ++ ⟨"b", JSValue.null⟩ :: l2 ∧
      ∀ m ∈ l1, m.prismicId ≠ "b" :=
  (hasNode_getNode_agree rtNodes "b").2 ⟨"b", JSValue.null⟩ rfl

/-- C6: `createNodeId` is a pure deterministic function of its input string —
two invocations on equal inputs yield the identical output (the hash consults
no ambient state, so this also holds across builds and processes). -/
theorem createNodeId_deterministic :
    ∀ s₁ s₂ : String, s₁ = s₂ → createNodeId s₁ = createNodeId s₂ := by
  intro s₁ s₂ h
  rw [h]

/-- Witness for C6's theorem at a concrete input. -/
theorem createNodeId_deterministic_witness :
    createNodeId "homepage" = createNodeId "homepage" :=
  createNodeId_deterministic "homepage" "homepage" rfl

/-- C3 (amended): equal payloads yield equal digests, and more generally the
digest depends only on the payload's JSON serialization; distinct payloads
whose serializations coincide therefore share a digest, so digest inequality
for distinct payloads does not hold in general. -/
theorem contentDigest_depends_on_serialization :
    ∀ P1 P2 : JSValue,
      (P1 = P2 → createContentDigest P1 = createContentDigest P2) ∧
      (jsonStringify P1 = jsonStringify P2 →
        createContentDigest P1 = createContentDigest P2) := by
  intro P1 P2
  constructor
  · intro h; rw [h]
  · intro h; rw [createContentDigest, createContentDigest, h]

/-- Witness for C3's theorem: `NaN` and `null` serialize identically, so the
theorem yields their digests equal. -/
theorem contentDigest_depends_on_serialization_witness :
    createContentDigest JSValue.nan = createContentDigest JSValue.null :=
  (contentDigest_depends_on_serialization JSValue.nan JSValue.null).2 rfl

/-- Counterexample to C3 as stated: the payloads `NaN` and `null` are
distinct, yet `JSON.stringify` maps both to `"null"`, so `contentDigest`
gives them the same digest. -/
theorem contentDigest_sensitivity_counterexample :
    createContentDigest JSValue.nan = createContentDigest JSValue.null ∧
    JSValue.nan ≠ JSValue.null :=
  ⟨rfl, fun h => JSValue.noConfusion h⟩

/-- C4 (amended): `unsubscribe` removes every subscription entry whose
callback is reference-equal to the argument; a following mutation invokes
exactly the remaining entries, in subscription order.  When the registered
callbacks are pairwise distinct, unsubscribing one that is subscribed leaves
exactly N−1.  Duplicate subscriptions of the same callback each fire
independently: a mutation invokes a callback once per entry. -/
theorem unsubscribe_remaining_fanout :
    ∀ (rt : Runtime) (c : Nat) (typePaths : List TypePath),
      ((rt.unsubscribe c).subscribers = rt.subscribers.filter (fun r => r != c)) ∧
      (((rt.unsubscribe c).registerTypePaths idBehav typePaths).2.map Prod.fst
        = rt.subscribers.filter (fun r => r != c)) ∧
      (rt.subscribers.Nodup → c ∈ rt.subscribers →
        ((rt.unsubscribe c).subscribers).length = rt.subscribers.length - 1) ∧
      (((rt.registerTypePaths idBehav typePaths).2.map Prod.fst).count c
        = rt.subscribers.count c) := by
  intro rt c typePaths
  refine ⟨rfl, ?_, ?_, ?_⟩
  · simp [Runtime.registerTypePaths, notify_idBehav_trace, Runtime.appendTypePaths,
      Runtime.unsubscribe, Function.comp_def]
  · intro hnd hmem
    show (rt.subscribers.filter (fun r => r != c)).length = rt.subscribers.length - 1
    rw [← List.Nodup.erase_eq_filter hnd c]
    exact List.length_erase_of_mem hmem
  · simp [Runtime.registerTypePaths, notify_idBehav_trace, Runtime.appendTypePaths,
      Function.comp_def]

/-- Witness for C4's theorem: three distinct subscribers, unsubscribing one
leaves two. -/
theorem unsubscribe_remaining_fanout_witness :
    ((rtTri.unsubscribe 2).subscribers).length = 3 - 1 :=
  (unsubscribe_remaining_fanout rtTri 2 []).2.2.1 (by decide) (by decide)

/-- Counterexample to C4 as stated: subscribing the same callback reference
twice (N = 2) and unsubscribing it removes both entries, so the next mutation
invokes 0 callbacks, not N−1 = 1. -/
theorem unsubscribe_duplicate_counterexample :
    rtDup.subscribers.length = 2 ∧
    (((rtDup.unsubscribe 0).registerTypePaths idBehav []).2).length = 0 ∧
    (0 : Nat) ≠ 2 - 1 :=
  ⟨rfl, rfl, by decide⟩

/-- C5 (amended): `nodes` and `typePaths` are append-only across every public
Runtime operation, and `subscribers` is append-only across every operation
except `unsubscribe`, which removes the entries equal to the given callback
(so the previous subscriber list is in general not a prefix afterwards).
Stated by giving each operation's exact effect on the three sequences, with
non-re-entrant callbacks. -/
theorem sequences_append_only_qualified :
    ∀ {M M' : Type} (cttp : M → (String → String) → List TypePath)
      (sstp : M' → (String → String) → List TypePath) (nf : NormalizeFn)
      (rt : Runtime) (c : Nat) (typePaths : List TypePath) (model : M)
      (models : List M) (slice : M') (slices : List M')
      (document : PrismicDocument) (documents : List PrismicDocument),
      ((rt.subscribe c).nodes = rt.nodes ∧ (rt.subscribe c).typePaths = rt.typePaths ∧
        (rt.subscribe c).subscribers = rt.subscribers ++ [c]) ∧
      ((rt.unsubscribe c).nodes = rt.nodes ∧ (rt.unsubscribe c).typePaths = rt.typePaths ∧
        (rt.unsubscribe c).subscribers = rt.subscribers.filter (fun r => r != c)) ∧
      ((rt.registerTypePaths idBehav typePaths).1.nodes = rt.nodes ∧
        (rt.registerTypePaths idBehav typePaths).1.typePaths = rt.typePaths ++ typePaths ∧
        (rt.registerTypePaths idBehav typePaths).1.subscribers = rt.subscribers) ∧
      ((rt.registerCustomTypeModel cttp idBehav model).1.1.nodes = rt.nodes ∧
        (rt.registerCustomTypeModel cttp idBehav model).1.1.typePaths
          = rt.typePaths ++ cttp model rt.config.transformFieldName ∧
        (rt.registerCustomTypeModel cttp idBehav model).1.1.subscribers = rt.subscribers) ∧
      ((rt.registerCustomTypeModels cttp idBehav models).1.1.nodes = rt.nodes ∧
        (rt.registerCustomTypeModels cttp idBehav models).1.1.typePaths
          = rt.typePaths ++ models.flatMap (fun m => cttp m rt.config.transformFieldName) ∧
        (rt.registerCustomTypeModels cttp idBehav models).1.1.subscribers = rt.subscribers) ∧
      ((rt.registerSharedSliceModel sstp idBehav slice).1.1.nodes = rt.nodes ∧
        (rt.registerSharedSliceModel sstp idBehav slice).1.1.typePaths
          = rt.typePaths ++ sstp slice rt.config.transformFieldName ∧
        (rt.registerSharedSliceModel sstp idBehav slice).1.1.subscribers = rt.subscribers) ∧
      ((rt.registerSharedSliceModels sstp idBehav slices).1.1.nodes = rt.nodes ∧
        (rt.registerSharedSliceModels sstp idBehav slices).1.1.typePaths
          = rt.typePaths ++ slices.flatMap (fun m => sstp m rt.config.transformFieldName) ∧
        (rt.registerSharedSliceModels sstp idBehav slices).1.1.subscribers = rt.subscribers) ∧
      ((rt.registerDocument nf idBehav document).1.1.nodes
          = rt.nodes ++ [rt.normalizeDocument nf document] ∧
        (rt.registerDocument nf idBehav document).1.1.typePaths = rt.typePaths ∧
        (rt.registerDocument nf idBehav document).1.1.subscribers = rt.subscribers) ∧
      ((rt.registerDocuments nf idBehav documents).1.1.nodes
          = rt.nodes ++ documents.map (fun d => rt.normalizeDocument nf d) ∧
        (rt.registerDocuments nf idBehav documents).1.1.typePaths = rt.typePaths ∧
        (rt.registerDocuments nf idBehav documents).1.1.subscribers = rt.subscribers) := by
  intro M M' cttp sstp nf rt c typePaths model models slice slices document documents
  refine ⟨⟨rfl, rfl, rfl⟩, ⟨rfl, rfl, rfl⟩, ?_, ?_, ?_, ?_, ?_, ?_, ?_⟩ <;>
    simp [Runtime.registerTypePaths, Runtime.registerCustomTypeModel,
      Runtime.registerCustomTypeModels, Runtime.registerSharedSliceModel,
      Runtime.registerSharedSliceModels, Runtime.registerDocument,
      Runtime.registerDocuments, Runtime.appendTypePaths, notify_idBehav_state]

/-- Counterexample to C5 as stated: after `subscribe 7` the subscriber list
is `[7]`; the public operation `unsubscribe 7` empties it, so the previous
contents are not a prefix of the new sequence. -/
theorem unsubscribe_shrinks_subscribers :
    (rt0.subscribe 7).subscribers = [7] ∧
    ((rt0.subscribe 7).unsubscribe 7).subscribers = [] ∧
    (((rt0.subscribe 7).unsubscribe 7).subscribers).take
        ((rt0.subscribe 7).subscribers).length ≠ (rt0.subscribe 7).subscribers :=
  ⟨rfl, rfl, by decide⟩
